import Mathlib

/-!
# Geogrid generation and metrics aggregation: a shallow embedding

This file embeds the two core modules of the `gbp-audit-bot` repository
(`backend/app/services/geogrid.py`) in Lean 4 and proves the specified
properties of the grid generator and the stats aggregator.

Conventions of the embedding:

* Python `float` arithmetic is idealised as exact rational arithmetic (`ℚ`).
* Python's `round(x, n)` (round-half-to-even on the idealised value) is
  `pyRound`;  `round6`/`round2` are the two instances the source uses.
* Python's `/` raises `ZeroDivisionError` when the divisor is zero; code
  paths where this can actually happen are modelled with `Except`, and a
  function that can `raise ValueError` is likewise modelled as returning
  `Except String α` whose `error` carries the message string.
* The single transcendental the source computes, `math.cos(math.radians(center_lat))`,
  is passed to `generate_geogrid` as the extra parameter `cosLat`; the caller
  supplies the cosine of the centre latitude.  Nothing else in the function
  looks at `center_lat`, so this is behaviour-preserving.  (For every float
  input `math.cos` returns a nonzero value, so hypotheses `cosLat ≠ 0`
  are satisfied by every run of the Python code.)
-/

instance {ε α : Type _} [DecidableEq ε] [DecidableEq α] : DecidableEq (Except ε α) := fun a b =>
  match a, b with
  | .error e, .error f =>
      if h : e = f then isTrue (congrArg Except.error h)
      else isFalse fun hh => h (Except.error.inj hh)
  | .ok x, .ok y =>
      if h : x = y then isTrue (congrArg Except.ok h)
      else isFalse fun hh => h (Except.ok.inj hh)
  | .error _, .ok _ => isFalse fun hh => Except.noConfusion hh
  | .ok _, .error _ => isFalse fun hh => Except.noConfusion hh

/-- Python's `round(x)` to an integer: round half to even ("banker's rounding")
on the idealised rational value. -/
def pyRound (x : ℚ) : ℤ :=
  let f := ⌊x⌋
  if x - f < 1/2 then f
  else if 1/2 < x - f then f + 1
  else if f % 2 = 0 then f else f + 1

/-- Python's `round(x, 6)`. -/
def round6 (x : ℚ) : ℚ := (pyRound (x * 1000000) : ℚ) / 1000000

/-- Python's `round(x, 2)`. -/
def round2 (x : ℚ) : ℚ := (pyRound (x * 100) : ℚ) / 100

/-- The `GridPoint` dataclass: one sample location of the geogrid.
`x` is the 0-indexed column, `y` the 0-indexed row. -/
structure GridPoint where
  x : ℤ
  y : ℤ
  latitude : ℚ
  longitude : ℚ
  label : String
  deriving DecidableEq, Repr

/-- Embedding of `generate_geogrid(center_lat, center_lng, radius_km, grid_size)`.

`cosLat` stands for `math.cos(math.radians(center_lat))`, the only use the
function makes of trigonometry (see the module docstring).  The divisor
`meters_per_lng_degree = 111111 * cosLat` is constant across the loop, so
Python's per-point `ZeroDivisionError` (raised when `cosLat == 0.0`, a value
`math.cos` never actually returns) is hoisted into one `Except` branch. -/
def generate_geogrid (center_lat center_lng radius_km : ℚ) (grid_size : ℤ)
    (cosLat : ℚ) : Except String (List GridPoint) :=
  if ¬ (grid_size = 3 ∨ grid_size = 5 ∨ grid_size = 7) then
    .error "Grid size must be 3, 5, or 7"
  else if radius_km ≤ 0 then
    .error "Radius must be positive"
  else if 50 < radius_km then
    .error "Radius must not exceed 50km for accurate calculations"
  else
    -- Distance between each point in meters:
    -- total diameter = 2 * radius, divided by (grid_size - 1) intervals
    let step_distance_m : ℚ := (radius_km * 2000) / ((grid_size : ℚ) - 1)
    -- Offset from center to reach the edge (in grid units)
    let half_size : ℚ := ((grid_size : ℚ) - 1) / 2
    -- Meters per degree of latitude (constant on Earth)
    let METERS_PER_LAT_DEGREE : ℚ := 111111
    -- Meters per degree of longitude (varies by latitude)
    let meters_per_lng_degree : ℚ := METERS_PER_LAT_DEGREE * cosLat
    if meters_per_lng_degree = 0 then .error "ZeroDivisionError: float division by zero"
    else
      .ok <| (List.range grid_size.toNat).flatMap fun (row : ℕ) =>
        (List.range grid_size.toNat).map fun (col : ℕ) =>
          let offset_lat_m : ℚ := (half_size - (row : ℚ)) * step_distance_m
          let offset_lng_m : ℚ := ((col : ℚ) - half_size) * step_distance_m
          let delta_lat := offset_lat_m / METERS_PER_LAT_DEGREE
          let delta_lng := offset_lng_m / meters_per_lng_degree
          { x := (col : ℤ)
            y := (row : ℤ)
            latitude := round6 (center_lat + delta_lat)
            longitude := round6 (center_lng + delta_lng)
            label := "Ponto_" ++ toString row ++ "_" ++ toString col }

/-- The point the source's inner loop body builds for a given `row`/`col`
(after the per-call quantities have been substituted). -/
def gridPointAt (center_lat center_lng radius_km : ℚ) (grid_size : ℤ) (cosLat : ℚ)
    (row col : ℕ) : GridPoint :=
  let step_distance_m : ℚ := (radius_km * 2000) / ((grid_size : ℚ) - 1)
  let half_size : ℚ := ((grid_size : ℚ) - 1) / 2
  { x := (col : ℤ)
    y := (row : ℤ)
    latitude := round6 (center_lat + (half_size - (row : ℚ)) * step_distance_m / 111111)
    longitude := round6 (center_lng + ((col : ℚ) - half_size) * step_distance_m / (111111 * cosLat))
    label := "Ponto_" ++ toString row ++ "_" ++ toString col }

/-- Embedding of `estimate_credits(grid_size)`: one SERP credit per grid point. -/
def estimate_credits (grid_size : ℤ) : Except String ℤ :=
  if ¬ (grid_size = 3 ∨ grid_size = 5 ∨ grid_size = 7) then
    .error "Grid size must be 3, 5, or 7"
  else
    .ok (grid_size * grid_size)

/-- Embedding of `calculate_visibility_score(ranks, grid_size)`.

`rank_sum` substitutes 20 for each `None`.  The divisor
`max_score - total_points` is `0` exactly when `grid_size = 0`, in which case
Python's `/` raises `ZeroDivisionError`; that is the `Except.error` branch. -/
def calculate_visibility_score (ranks : List (Option ℤ)) (grid_size : ℤ) :
    Except String ℚ :=
  let total_points : ℤ := grid_size * grid_size
  let max_score : ℤ := total_points * 20  -- 20 is the max rank we track
  -- Sum of all ranks (None = not found = 20)
  let rank_sum : ℤ := (ranks.map fun rank => rank.getD 20).sum
  if max_score - total_points = 0 then .error "ZeroDivisionError: division by zero"
  else
    -- Calculate score (invert so higher is better)
    let score : ℚ := (((max_score : ℚ) - (rank_sum : ℚ)) / ((max_score : ℚ) - (total_points : ℚ))) * 100
    .ok (round2 (max 0 (min 100 score)))

/-- Embedding of `calculate_average_rank(ranks)`: mean of the present ranks only,
`None` when the business was found nowhere. -/
def calculate_average_rank (ranks : List (Option ℤ)) : Option ℚ :=
  let valid_ranks : List ℤ := ranks.filterMap id
  if valid_ranks = [] then none
  else some (round2 ((valid_ranks.sum : ℚ) / (valid_ranks.length : ℚ)))

/-- Embedding of `get_rank_color(rank)`. -/
def get_rank_color (rank : Option ℤ) : String :=
  match rank with
  | none => "red"
  | some r => if 10 < r then "red" else if r ≤ 3 then "green" else "yellow"

/-- Embedding of `count_top3(ranks)`: `len([r for r in ranks if r is not None and r <= 3])`. -/
def count_top3 (ranks : List (Option ℤ)) : ℕ :=
  (ranks.filter fun rank =>
    match rank with
    | some r => decide (r ≤ 3)
    | none => false).length

/-- Embedding of `count_top10(ranks)`: `len([r for r in ranks if r is not None and r <= 10])`. -/
def count_top10 (ranks : List (Option ℤ)) : ℕ :=
  (ranks.filter fun rank =>
    match rank with
    | some r => decide (r ≤ 10)
    | none => false).length

/-- The `ScanStats` dataclass. -/
structure ScanStats where
  arp : Option ℚ
  top3 : ℕ
  top10 : ℕ
  visibility_score : ℚ
  total_points : ℤ
  deriving DecidableEq, Repr

/-- Embedding of `calculate_scan_stats(ranks, grid_size)`: bundles the four metrics.
The only fallible constituent is `calculate_visibility_score`. -/
def calculate_scan_stats (ranks : List (Option ℤ)) (grid_size : ℤ) :
    Except String ScanStats :=
  (calculate_visibility_score ranks grid_size).map fun vs =>
    { arp := calculate_average_rank ranks
      top3 := count_top3 ranks
      top10 := count_top10 ranks
      visibility_score := vs
      total_points := grid_size * grid_size }

/-! ## Helper lemmas -/

theorem le_pyRound (x : ℚ) : ⌊x⌋ ≤ pyRound x := by
  simp only [pyRound]
  split_ifs <;> omega

theorem pyRound_le_ceil (x : ℚ) : pyRound x ≤ ⌈x⌉ := by
  have hfc : ⌊x⌋ ≤ ⌈x⌉ := Int.floor_le_ceil x
  have hfl : (⌊x⌋ : ℚ) ≤ x := Int.floor_le x
  simp only [pyRound]
  split_ifs with h1 h2 h3
  · exact hfc
  · have hx : (⌊x⌋ : ℚ) < x := by linarith
    have := Int.lt_ceil.mpr hx
    omega
  · exact hfc
  · have hx : (⌊x⌋ : ℚ) < x := by linarith
    have := Int.lt_ceil.mpr hx
    omega

theorem pyRound_ge (x : ℚ) : x - 1/2 ≤ (pyRound x : ℚ) := by
  have hfl : (⌊x⌋ : ℚ) ≤ x := Int.floor_le x
  have hfu : x < (⌊x⌋ : ℚ) + 1 := Int.lt_floor_add_one x
  simp only [pyRound]
  split_ifs with h1 h2 h3 <;> push_cast <;> linarith

theorem pyRound_le (x : ℚ) : (pyRound x : ℚ) ≤ x + 1/2 := by
  have hfl : (⌊x⌋ : ℚ) ≤ x := Int.floor_le x
  have hfu : x < (⌊x⌋ : ℚ) + 1 := Int.lt_floor_add_one x
  simp only [pyRound]
  split_ifs with h1 h2 h3 <;> push_cast <;> linarith

theorem pyRound_intCast (n : ℤ) : pyRound (n : ℚ) = n := by
  simp only [pyRound, Int.floor_intCast]
  norm_num

theorem round2_ge (x : ℚ) : x - 1/200 ≤ round2 x := by
  have := pyRound_ge (x * 100)
  simp only [round2]
  linarith

theorem round2_le (x : ℚ) : round2 x ≤ x + 1/200 := by
  have := pyRound_le (x * 100)
  simp only [round2]
  linarith

theorem round6_ge (x : ℚ) : x - 1/2000000 ≤ round6 x := by
  have := pyRound_ge (x * 1000000)
  simp only [round6]
  linarith

theorem round6_le (x : ℚ) : round6 x ≤ x + 1/2000000 := by
  have := pyRound_le (x * 1000000)
  simp only [round6]
  linarith

theorem intCast_le_round2 {a : ℤ} {x : ℚ} (h : (a : ℚ) ≤ x) : (a : ℚ) ≤ round2 x := by
  have h1 : 100 * a ≤ ⌊x * 100⌋ := Int.le_floor.mpr (by push_cast; linarith)
  have h2 := le_pyRound (x * 100)
  have h3 : ((100 * a : ℤ) : ℚ) ≤ ((pyRound (x * 100) : ℤ) : ℚ) := by
    exact_mod_cast le_trans h1 h2
  simp only [round2]
  push_cast at h3
  linarith

theorem round2_le_intCast {b : ℤ} {x : ℚ} (h : x ≤ (b : ℚ)) : round2 x ≤ (b : ℚ) := by
  have h1 : ⌈x * 100⌉ ≤ 100 * b := Int.ceil_le.mpr (by push_cast; linarith)
  have h2 := pyRound_le_ceil (x * 100)
  have h3 : ((pyRound (x * 100) : ℤ) : ℚ) ≤ ((100 * b : ℤ) : ℚ) := by
    exact_mod_cast le_trans h2 h1
  simp only [round2]
  push_cast at h3
  linarith

theorem round2_intCast (n : ℤ) : round2 (n : ℚ) = (n : ℚ) := by
  have : ((n : ℚ)) * 100 = ((n * 100 : ℤ) : ℚ) := by push_cast; ring
  rw [round2, this, pyRound_intCast]
  push_cast
  ring

theorem round6_intCast (n : ℤ) : round6 (n : ℚ) = (n : ℚ) := by
  have h : ((n : ℚ)) * 1000000 = ((n * 1000000 : ℤ) : ℚ) := by push_cast; ring
  rw [round6, h, pyRound_intCast]
  push_cast
  ring

theorem list_sum_le_mul_length (l : List ℤ) (c : ℤ) (h : ∀ x ∈ l, x ≤ c) :
    l.sum ≤ c * l.length := by
  induction l with
  | nil => simp
  | cons a t ih =>
      have ha := h a (List.mem_cons_self a t)
      have ht := ih fun x hx => h x (List.mem_cons_of_mem a hx)
      simp only [List.sum_cons, List.length_cons]
      push_cast
      linarith

theorem mul_length_le_list_sum (l : List ℤ) (c : ℤ) (h : ∀ x ∈ l, c ≤ x) :
    c * l.length ≤ l.sum := by
  induction l with
  | nil => simp
  | cons a t ih =>
      have ha := h a (List.mem_cons_self a t)
      have ht := ih fun x hx => h x (List.mem_cons_of_mem a hx)
      simp only [List.sum_cons, List.length_cons]
      push_cast
      linarith

theorem range_flatMap_map {α : Type _} (f : ℕ → ℕ → α) (n : ℕ) (hn : 0 < n) :
    ∀ m : ℕ,
      ((List.range m).flatMap fun r => (List.range n).map (f r)) =
        (List.range (m * n)).map fun k => f (k / n) (k % n) := by
  intro m
  induction m with
  | zero => simp
  | succ m ih =>
      rw [List.range_succ, List.flatMap_append, ih, Nat.succ_mul, List.range_add,
        List.map_append, List.map_map]
      congr 1
      · simp only [List.flatMap_cons, List.flatMap_nil, List.append_nil]
        refine (List.map_congr_left fun j hj => ?_).symm
        have hjn : j < n := List.mem_range.mp hj
        have hdiv : (m * n + j) / n = m := by
          rw [Nat.mul_comm m n, Nat.mul_add_div hn, Nat.div_eq_of_lt hjn, Nat.add_zero]
        have hmod : (m * n + j) % n = j := by
          rw [Nat.mul_comm m n, Nat.mul_add_mod, Nat.mod_eq_of_lt hjn]
        simp only [Function.comp_apply, Nat.add_comm (m * n) j]
        rw [Nat.add_comm j (m * n), hdiv, hmod]

theorem generate_geogrid_ok (center_lat center_lng radius_km cosLat : ℚ) (grid_size : ℤ)
    (hgs : grid_size = 3 ∨ grid_size = 5 ∨ grid_size = 7)
    (h0 : 0 < radius_km) (h50 : radius_km ≤ 50) (hcos : cosLat ≠ 0) :
    generate_geogrid center_lat center_lng radius_km grid_size cosLat =
      .ok ((List.range (grid_size.toNat * grid_size.toNat)).map fun k =>
        gridPointAt center_lat center_lng radius_km grid_size cosLat
          (k / grid_size.toNat) (k % grid_size.toNat)) := by
  have hn : 0 < grid_size.toNat := by rcases hgs with h | h | h <;> subst h <;> decide
  have hm : (111111 : ℚ) * cosLat ≠ 0 := mul_ne_zero (by norm_num) hcos
  simp only [generate_geogrid, gridPointAt]
  rw [if_neg (not_not_intro hgs), if_neg (not_le.mpr h0), if_neg (not_lt.mpr h50),
    if_neg hm]
  rw [range_flatMap_map _ _ hn]

/-! ## Claim theorems -/

/-- C1: for every valid input (`grid_size ∈ {3,5,7}`, `0 < radius_km ≤ 50`),
`generate_geogrid` returns exactly `grid_size²` points in row-major order —
the point at index `k` has row `y = k / grid_size` and column
`x = k % grid_size` — and `estimate_credits grid_size` returns `grid_size²`,
the same as the number of points returned. -/
theorem generate_geogrid_count_rowmajor_credits
    (center_lat center_lng radius_km cosLat : ℚ) (grid_size : ℤ)
    (hgs : grid_size = 3 ∨ grid_size = 5 ∨ grid_size = 7)
    (h0 : 0 < radius_km) (h50 : radius_km ≤ 50) (hcos : cosLat ≠ 0) :
    ∃ pts : List GridPoint,
      generate_geogrid center_lat center_lng radius_km grid_size cosLat = .ok pts ∧
      (pts.length : ℤ) = grid_size * grid_size ∧
      (∀ k : ℕ, ∀ hk : k < pts.length,
        (pts.get ⟨k, hk⟩).y = (k : ℤ) / grid_size ∧
        (pts.get ⟨k, hk⟩).x = (k : ℤ) % grid_size) ∧
      estimate_credits grid_size = .ok (grid_size * grid_size) := by
  have hgs0 : (0 : ℤ) ≤ grid_size := by rcases hgs with h | h | h <;> subst h <;> norm_num
  have htn : (grid_size.toNat : ℤ) = grid_size := Int.toNat_of_nonneg hgs0
  refine ⟨_, generate_geogrid_ok center_lat center_lng radius_km cosLat grid_size hgs h0 h50 hcos,
    ?_, ?_, ?_⟩
  · simp only [List.length_map, List.length_range]
    push_cast [htn]
    ring
  · intro k hk
    simp only [List.get_eq_getElem, List.getElem_map, List.getElem_range]
    constructor
    · show ((k / grid_size.toNat : ℕ) : ℤ) = (k : ℤ) / grid_size
      rw [← htn]
      exact_mod_cast Int.ofNat_ediv k grid_size.toNat
    · show ((k % grid_size.toNat : ℕ) : ℤ) = (k : ℤ) % grid_size
      rw [← htn]
      exact_mod_cast Int.ofNat_emod k grid_size.toNat
  · simp only [estimate_credits]
    rw [if_neg (not_not_intro hgs)]

/-- Witness for C1 at the documented example input
(center `(-22.9711, -43.1825)` scaled to exact rationals, radius `2`,
`grid_size = 3`; `cosLat` is a stand-in rational value of
`cos(radians(-22.9711))`). -/
theorem generate_geogrid_count_rowmajor_credits_witness :
    ∃ pts : List GridPoint,
      generate_geogrid (-229711/10000) (-431825/10000) 2 3 (92071/100000) = .ok pts ∧
      (pts.length : ℤ) = 3 * 3 ∧
      (∀ k : ℕ, ∀ hk : k < pts.length,
        (pts.get ⟨k, hk⟩).y = (k : ℤ) / 3 ∧
        (pts.get ⟨k, hk⟩).x = (k : ℤ) % 3) ∧
      estimate_credits 3 = .ok (3 * 3) :=
  generate_geogrid_count_rowmajor_credits (-229711/10000) (-431825/10000) 2 (92071/100000) 3
    (by norm_num) (by norm_num) (by norm_num) (by norm_num)

/-- C2: for every valid input, the point `generate_geogrid` produces at row
`r`, column `c` (index `r * grid_size + c`) has
`latitude = round6 (center_lat + (half - r) * step_m / 111111)` and
`longitude = round6 (center_lng + (c - half) * step_m / (111111 * cosLat))`
with `step_m = radius_km * 2000 / (grid_size - 1)` and
`half = (grid_size - 1) / 2`, where `cosLat` stands for
`cos(radians(center_lat))` computed once per call from the fixed center
latitude. -/
theorem generate_geogrid_point_formula
    (center_lat center_lng radius_km cosLat : ℚ) (grid_size : ℤ)
    (hgs : grid_size = 3 ∨ grid_size = 5 ∨ grid_size = 7)
    (h0 : 0 < radius_km) (h50 : radius_km ≤ 50) (hcos : cosLat ≠ 0)
    (r c : ℕ) (hr : r < grid_size.toNat) (hc : c < grid_size.toNat) :
    ∃ pts : List GridPoint,
      generate_geogrid center_lat center_lng radius_km grid_size cosLat = .ok pts ∧
      r * grid_size.toNat + c < pts.length ∧
      ∀ hk : r * grid_size.toNat + c < pts.length,
        (pts.get ⟨r * grid_size.toNat + c, hk⟩).latitude =
          round6 (center_lat +
            (((grid_size : ℚ) - 1) / 2 - (r : ℚ)) *
              (radius_km * 2000 / ((grid_size : ℚ) - 1)) / 111111) ∧
        (pts.get ⟨r * grid_size.toNat + c, hk⟩).longitude =
          round6 (center_lng +
            ((c : ℚ) - ((grid_size : ℚ) - 1) / 2) *
              (radius_km * 2000 / ((grid_size : ℚ) - 1)) / (111111 * cosLat)) := by
  have hn : 0 < grid_size.toNat := by rcases hgs with h | h | h <;> subst h <;> decide
  have hlt : r * grid_size.toNat + c < grid_size.toNat * grid_size.toNat := by
    calc r * grid_size.toNat + c < r * grid_size.toNat + grid_size.toNat :=
          Nat.add_lt_add_left hc _
    _ = (r + 1) * grid_size.toNat := by ring
    _ ≤ grid_size.toNat * grid_size.toNat := Nat.mul_le_mul_right _ hr
  refine ⟨_, generate_geogrid_ok center_lat center_lng radius_km cosLat grid_size hgs h0 h50 hcos,
    by simpa using hlt, ?_⟩
  intro hk
  have hdiv : (r * grid_size.toNat + c) / grid_size.toNat = r := by
    rw [Nat.mul_comm r grid_size.toNat, Nat.mul_add_div hn, Nat.div_eq_of_lt hc, Nat.add_zero]
  have hmod : (r * grid_size.toNat + c) % grid_size.toNat = c := by
    rw [Nat.mul_comm r grid_size.toNat, Nat.mul_add_mod, Nat.mod_eq_of_lt hc]
  simp only [List.get_eq_getElem, List.getElem_map, List.getElem_range, hdiv, hmod]
  exact ⟨rfl, rfl⟩

/-- Witness for C2: a 3×3 grid centred at `(0, 0)` (where the cosine
parameter is exactly `1`) with radius 2 km; the point at row 1, column 2
sits 2000 m east of the centre, at latitude `0` and longitude
`round6 (2000/111111) = 0.018`. -/
theorem generate_geogrid_point_formula_witness :
    ∃ pts : List GridPoint,
      generate_geogrid 0 0 2 3 1 = .ok pts ∧
      5 < pts.length ∧
      ∀ hk : 5 < pts.length,
        (pts.get ⟨5, hk⟩).latitude = 0 ∧ (pts.get ⟨5, hk⟩).longitude = 9/500 := by
  obtain ⟨pts, hok, hlen, hpt⟩ :=
    generate_geogrid_point_formula 0 0 2 1 3 (by norm_num) (by norm_num) (by norm_num)
      (by norm_num) 1 2 (by decide) (by decide)
  have hlen5 : 5 < pts.length := hlen
  refine ⟨pts, hok, hlen5, fun hk => ?_⟩
  obtain ⟨hlat, hlng⟩ := hpt hlen
  refine ⟨?_, ?_⟩
  · have h1 : (pts.get ⟨5, hk⟩).latitude =
        round6 (0 + ((((3 : ℤ) : ℚ) - 1) / 2 - ((1 : ℕ) : ℚ)) *
          (2 * 2000 / (((3 : ℤ) : ℚ) - 1)) / 111111) := hlat
    rw [h1]
    have e1 : (0 : ℚ) + ((((3 : ℤ) : ℚ) - 1) / 2 - ((1 : ℕ) : ℚ)) *
        (2 * 2000 / (((3 : ℤ) : ℚ) - 1)) / 111111 = 0 := by push_cast; norm_num
    rw [e1]
    have hz := round6_intCast 0
    norm_num at hz
    exact hz
  · have h2 : (pts.get ⟨5, hk⟩).longitude =
        round6 (0 + (((2 : ℕ) : ℚ) - (((3 : ℤ) : ℚ) - 1) / 2) *
          (2 * 2000 / (((3 : ℤ) : ℚ) - 1)) / (111111 * 1)) := hlng
    rw [h2]
    have e2 : (0 : ℚ) + (((2 : ℕ) : ℚ) - (((3 : ℤ) : ℚ) - 1) / 2) *
        (2 * 2000 / (((3 : ℤ) : ℚ) - 1)) / (111111 * 1) = 2000 / 111111 := by
      push_cast; norm_num
    rw [e2]
    have hfl : ⌊(2000 / 111111 * 1000000 : ℚ)⌋ = 18000 := by norm_num
    simp only [round6, pyRound, hfl]
    norm_num

theorem abs_round6_sub_le (x : ℚ) : |round6 x - x| ≤ 1/10000 := by
  rw [abs_le]
  constructor
  · linarith [round6_ge x]
  · linarith [round6_le x]

theorem gridPointAt_center (center_lat center_lng radius_km cosLat : ℚ) (grid_size : ℤ)
    (half : ℕ) (hhalf : ((half : ℕ) : ℚ) = ((grid_size : ℚ) - 1) / 2) :
    (gridPointAt center_lat center_lng radius_km grid_size cosLat half half).latitude =
      round6 center_lat ∧
    (gridPointAt center_lat center_lng radius_km grid_size cosLat half half).longitude =
      round6 center_lng := by
  simp only [gridPointAt]
  rw [← hhalf]
  constructor
  · norm_num
  · norm_num

theorem center_point_aux (center_lat center_lng radius_km cosLat : ℚ)
    (grid_size : ℤ) (half : ℕ)
    (hgs : grid_size = 3 ∨ grid_size = 5 ∨ grid_size = 7)
    (h0 : 0 < radius_km) (h50 : radius_km ≤ 50) (hcos : cosLat ≠ 0)
    (hhalf : ((half : ℕ) : ℚ) = ((grid_size : ℚ) - 1) / 2)
    (hy : ((half : ℕ) : ℤ) = (grid_size - 1) / 2)
    (hidx_div : ((grid_size * grid_size - 1) / 2).toNat / grid_size.toNat = half)
    (hidx_mod : ((grid_size * grid_size - 1) / 2).toNat % grid_size.toNat = half)
    (hidx_lt : ((grid_size * grid_size - 1) / 2).toNat <
      grid_size.toNat * grid_size.toNat) :
    ∃ pts : List GridPoint,
      generate_geogrid center_lat center_lng radius_km grid_size cosLat = .ok pts ∧
      ((grid_size * grid_size - 1) / 2).toNat < pts.length ∧
      ∀ hk : ((grid_size * grid_size - 1) / 2).toNat < pts.length,
        (pts.get ⟨((grid_size * grid_size - 1) / 2).toNat, hk⟩).y = (grid_size - 1) / 2 ∧
        (pts.get ⟨((grid_size * grid_size - 1) / 2).toNat, hk⟩).x = (grid_size - 1) / 2 ∧
        |(pts.get ⟨((grid_size * grid_size - 1) / 2).toNat, hk⟩).latitude - center_lat|
          ≤ 1/10000 ∧
        |(pts.get ⟨((grid_size * grid_size - 1) / 2).toNat, hk⟩).longitude - center_lng|
          ≤ 1/10000 := by
  refine ⟨_, generate_geogrid_ok center_lat center_lng radius_km cosLat grid_size hgs h0 h50 hcos,
    by simpa using hidx_lt, ?_⟩
  intro hk
  obtain ⟨hla, hlo⟩ :=
    gridPointAt_center center_lat center_lng radius_km cosLat grid_size half hhalf
  simp only [List.get_eq_getElem, List.getElem_map, List.getElem_range, hidx_div, hidx_mod]
  refine ⟨?_, ?_, ?_, ?_⟩
  · simp only [gridPointAt]
    exact hy
  · simp only [gridPointAt]
    exact hy
  · rw [hla]
    exact abs_round6_sub_le center_lat
  · rw [hlo]
    exact abs_round6_sub_le center_lng

/-- C3: for every valid input, the point `generate_geogrid` produces at index
`(grid_size² - 1) / 2` — row `(grid_size-1)/2`, column `(grid_size-1)/2` — has
latitude within `1e-4` degrees of `center_lat` and longitude within `1e-4`
degrees of `center_lng`. -/
theorem generate_geogrid_center_point
    (center_lat center_lng radius_km cosLat : ℚ) (grid_size : ℤ)
    (hgs : grid_size = 3 ∨ grid_size = 5 ∨ grid_size = 7)
    (h0 : 0 < radius_km) (h50 : radius_km ≤ 50) (hcos : cosLat ≠ 0) :
    ∃ pts : List GridPoint,
      generate_geogrid center_lat center_lng radius_km grid_size cosLat = .ok pts ∧
      ((grid_size * grid_size - 1) / 2).toNat < pts.length ∧
      ∀ hk : ((grid_size * grid_size - 1) / 2).toNat < pts.length,
        (pts.get ⟨((grid_size * grid_size - 1) / 2).toNat, hk⟩).y = (grid_size - 1) / 2 ∧
        (pts.get ⟨((grid_size * grid_size - 1) / 2).toNat, hk⟩).x = (grid_size - 1) / 2 ∧
        |(pts.get ⟨((grid_size * grid_size - 1) / 2).toNat, hk⟩).latitude - center_lat|
          ≤ 1/10000 ∧
        |(pts.get ⟨((grid_size * grid_size - 1) / 2).toNat, hk⟩).longitude - center_lng|
          ≤ 1/10000 := by
  rcases hgs with h | h | h <;> subst h
  · exact center_point_aux center_lat center_lng radius_km cosLat 3 1 (Or.inl rfl)
      h0 h50 hcos (by norm_num) (by decide) (by decide) (by decide) (by decide)
  · exact center_point_aux center_lat center_lng radius_km cosLat 5 2 (Or.inr (Or.inl rfl))
      h0 h50 hcos (by norm_num) (by decide) (by decide) (by decide) (by decide)
  · exact center_point_aux center_lat center_lng radius_km cosLat 7 3 (Or.inr (Or.inr rfl))
      h0 h50 hcos (by norm_num) (by decide) (by decide) (by decide) (by decide)

/-- Witness for C3 at the documented example input (Copacabana centre,
radius 2 km, 3×3 grid; `cosLat` is a stand-in rational for
`cos(radians(-22.9711))`). -/
theorem generate_geogrid_center_point_witness :
    ∃ pts : List GridPoint,
      generate_geogrid (-229711/10000) (-431825/10000) 2 3 (92071/100000) = .ok pts ∧
      (((3 : ℤ) * 3 - 1) / 2).toNat < pts.length ∧
      ∀ hk : (((3 : ℤ) * 3 - 1) / 2).toNat < pts.length,
        (pts.get ⟨(((3 : ℤ) * 3 - 1) / 2).toNat, hk⟩).y = ((3 : ℤ) - 1) / 2 ∧
        (pts.get ⟨(((3 : ℤ) * 3 - 1) / 2).toNat, hk⟩).x = ((3 : ℤ) - 1) / 2 ∧
        |(pts.get ⟨(((3 : ℤ) * 3 - 1) / 2).toNat, hk⟩).latitude - (-229711/10000)|
          ≤ 1/10000 ∧
        |(pts.get ⟨(((3 : ℤ) * 3 - 1) / 2).toNat, hk⟩).longitude - (-431825/10000)|
          ≤ 1/10000 :=
  generate_geogrid_center_point (-229711/10000) (-431825/10000) 2 (92071/100000) 3
    (by norm_num) (by norm_num) (by norm_num) (by norm_num)

/-- C6: with a nonzero cosine value, `generate_geogrid` fails — with the
`ValueError` the spec calls `ValidationError` — if and only if `grid_size` is
not in `{3,5,7}`, or `radius_km ≤ 0`, or `radius_km > 50` (so radius exactly
50 with a valid `grid_size` succeeds); on an invalid input the result carries
no point list. -/
theorem generate_geogrid_validation_iff
    (center_lat center_lng radius_km cosLat : ℚ) (grid_size : ℤ) (hcos : cosLat ≠ 0) :
    (∃ e, generate_geogrid center_lat center_lng radius_km grid_size cosLat = .error e) ↔
      ¬ (grid_size = 3 ∨ grid_size = 5 ∨ grid_size = 7) ∨ radius_km ≤ 0 ∨ 50 < radius_km := by
  constructor
  · rintro ⟨e, he⟩
    by_contra hcon
    push_neg at hcon
    obtain ⟨hg', hr0, hr50⟩ := hcon
    rw [generate_geogrid_ok center_lat center_lng radius_km cosLat grid_size hg' hr0 hr50 hcos]
      at he
    exact Except.noConfusion he
  · intro h
    simp only [generate_geogrid]
    rcases h with h | h | h
    · rw [if_pos h]
      exact ⟨_, rfl⟩
    · by_cases hg : ¬ (grid_size = 3 ∨ grid_size = 5 ∨ grid_size = 7)
      · rw [if_pos hg]
        exact ⟨_, rfl⟩
      · rw [if_neg hg, if_pos h]
        exact ⟨_, rfl⟩
    · by_cases hg : ¬ (grid_size = 3 ∨ grid_size = 5 ∨ grid_size = 7)
      · rw [if_pos hg]
        exact ⟨_, rfl⟩
      · rw [if_neg hg]
        by_cases hr : radius_km ≤ 0
        · rw [if_pos hr]
          exact ⟨_, rfl⟩
        · rw [if_neg hr, if_pos h]
          exact ⟨_, rfl⟩

/-- Witness for C6 at `grid_size = 4` (one of the invalid sizes the claim
names): the call fails. -/
theorem generate_geogrid_validation_iff_witness :
    (∃ e, generate_geogrid 0 0 2 4 1 = .error e) ↔
      ¬ ((4 : ℤ) = 3 ∨ (4 : ℤ) = 5 ∨ (4 : ℤ) = 7) ∨ (2 : ℚ) ≤ 0 ∨ 50 < (2 : ℚ) :=
  generate_geogrid_validation_iff 0 0 2 1 4 (by norm_num)

/-- C10: `generate_geogrid` performs no validation of `center_lat` or
`center_lng`: for every centre — including values far outside the documented
`[-90,90]`/`[-180,180]` ranges — and every nonzero cosine value, a call with
valid `radius_km` and `grid_size` succeeds and returns `grid_size²` points;
only `grid_size` and `radius_km` are checked. -/
theorem generate_geogrid_no_center_validation
    (center_lat center_lng cosLat : ℚ) (hcos : cosLat ≠ 0)
    (radius_km : ℚ) (grid_size : ℤ)
    (hgs : grid_size = 3 ∨ grid_size = 5 ∨ grid_size = 7)
    (h0 : 0 < radius_km) (h50 : radius_km ≤ 50) :
    ∃ pts : List GridPoint,
      generate_geogrid center_lat center_lng radius_km grid_size cosLat = .ok pts ∧
      (pts.length : ℤ) = grid_size * grid_size := by
  have hgs0 : (0 : ℤ) ≤ grid_size := by rcases hgs with h | h | h <;> subst h <;> norm_num
  have htn : (grid_size.toNat : ℤ) = grid_size := Int.toNat_of_nonneg hgs0
  refine ⟨_, generate_geogrid_ok center_lat center_lng radius_km cosLat grid_size hgs h0 h50 hcos,
    ?_⟩
  simp only [List.length_map, List.length_range]
  push_cast [htn]
  ring

/-- Witness for C10 at a centre far outside the documented ranges
(`center_lat = 200`, `center_lng = 300`; the cosine stand-in is
`cos(radians(200)) ≈ -0.9397`). -/
theorem generate_geogrid_no_center_validation_witness :
    ∃ pts : List GridPoint,
      generate_geogrid 200 300 2 3 (-9397/10000) = .ok pts ∧
      (pts.length : ℤ) = 3 * 3 :=
  generate_geogrid_no_center_validation 200 300 (-9397/10000) (by norm_num) 2 3
    (by norm_num) (by norm_num) (by norm_num)

theorem calculate_visibility_score_eq (ranks : List (Option ℤ)) (grid_size : ℤ)
    (hne : grid_size ≠ 0) :
    calculate_visibility_score ranks grid_size =
      .ok (round2 (max 0 (min 100
        ((((grid_size * grid_size * 20 : ℤ) : ℚ) -
            (((ranks.map fun rank => rank.getD 20).sum : ℤ) : ℚ)) /
          (((grid_size * grid_size * 20 : ℤ) : ℚ) - ((grid_size * grid_size : ℤ) : ℚ)) *
          100)))) := by
  have h2 : grid_size * grid_size ≠ 0 := mul_ne_zero hne hne
  have ht : ¬ (grid_size * grid_size * 20 - grid_size * grid_size = 0) := fun hc =>
    h2 (by linarith)
  simp only [calculate_visibility_score]
  rw [if_neg ht]

theorem round2_clamp_mem (s : ℚ) :
    0 ≤ round2 (max 0 (min 100 s)) ∧ round2 (max 0 (min 100 s)) ≤ 100 := by
  have hy0 : ((0 : ℤ) : ℚ) ≤ max 0 (min 100 s) := by
    rw [Int.cast_zero]
    exact le_max_left _ _
  have hy100 : max (0 : ℚ) (min 100 s) ≤ ((100 : ℤ) : ℚ) := by
    have h : ((100 : ℤ) : ℚ) = (100 : ℚ) := by norm_num
    rw [h]
    exact max_le (by norm_num) (min_le_left _ _)
  constructor
  · have h := intCast_le_round2 hy0
    simpa using h
  · have h := round2_le_intCast hy100
    simpa using h

theorem round2_clamp_strict {s : ℚ} (h1 : 1/100 ≤ s) (h2 : s ≤ 99) :
    0 < round2 (max 0 (min 100 s)) ∧ round2 (max 0 (min 100 s)) < 100 := by
  have hmin : min (100 : ℚ) s = s := min_eq_right (by linarith)
  have hmax : max (0 : ℚ) (min 100 s) = s := by
    rw [hmin]
    exact max_eq_right (by linarith)
  rw [hmax]
  constructor
  · linarith [round2_ge s]
  · linarith [round2_le s]

theorem sum_le_of_mem_le_sub_one (l : List ℤ) (c v : ℤ) (hv : v ∈ l) (hv1 : v ≤ c - 1)
    (h : ∀ x ∈ l, x ≤ c) : l.sum ≤ c * l.length - 1 := by
  obtain ⟨s1, s2, rfl⟩ := List.mem_iff_append.mp hv
  have h1 := list_sum_le_mul_length s1 c (fun x hx => h x (List.mem_append_left _ hx))
  have h2 := list_sum_le_mul_length s2 c
    (fun x hx => h x (List.mem_append_right _ (List.mem_cons_of_mem _ hx)))
  simp only [List.sum_append, List.sum_cons, List.length_append, List.length_cons]
  push_cast
  linarith

theorem sum_ge_of_mem_ge (l : List ℤ) (b w : ℤ) (hw : w ∈ l)
    (h : ∀ x ∈ l, b ≤ x) : b * l.length + (w - b) ≤ l.sum := by
  obtain ⟨s1, s2, rfl⟩ := List.mem_iff_append.mp hw
  have h1 := mul_length_le_list_sum s1 b (fun x hx => h x (List.mem_append_left _ hx))
  have h2 := mul_length_le_list_sum s2 b
    (fun x hx => h x (List.mem_append_right _ (List.mem_cons_of_mem _ hx)))
  simp only [List.sum_append, List.sum_cons, List.length_append, List.length_cons]
  push_cast
  linarith

theorem score_bounds_aux (T R : ℤ) (hT : T = 9 ∨ T = 25 ∨ T = 49)
    (hlo : T + 19 ≤ R) (hhi : R ≤ 20 * T - 1) :
    1/100 ≤ (((T * 20 : ℤ) : ℚ) - ((R : ℤ) : ℚ)) /
        (((T * 20 : ℤ) : ℚ) - ((T : ℤ) : ℚ)) * 100 ∧
    (((T * 20 : ℤ) : ℚ) - ((R : ℤ) : ℚ)) /
        (((T * 20 : ℤ) : ℚ) - ((T : ℤ) : ℚ)) * 100 ≤ 99 := by
  have hloQ : (T : ℚ) + 19 ≤ (R : ℚ) := by exact_mod_cast hlo
  have hhiQ : (R : ℚ) ≤ 20 * (T : ℚ) - 1 := by exact_mod_cast hhi
  rcases hT with h | h | h <;> subst h <;> push_cast at hloQ hhiQ ⊢ <;>
    exact ⟨by linarith, by linarith⟩

/-- C5: `calculate_average_rank` returns `none` exactly when every rank in the
sequence is absent, and otherwise returns the mean of only the present rank
values rounded to 2 decimals; the absent-as-20 substitution is never applied
(only `ranks.filterMap id`, the present values, enter the computation). -/
theorem calculate_average_rank_spec (ranks : List (Option ℤ)) :
    (calculate_average_rank ranks = none ↔ ∀ r ∈ ranks, r = none) ∧
    ((¬ ∀ r ∈ ranks, r = none) →
      calculate_average_rank ranks =
        some (round2 (((ranks.filterMap id).sum : ℚ) /
          ((ranks.filterMap id).length : ℚ)))) := by
  have hchar : ranks.filterMap id = [] ↔ ∀ r ∈ ranks, r = none := by
    rw [List.filterMap_eq_nil_iff]
    constructor
    · intro h r hr
      exact h r hr
    · intro h r hr
      exact h r hr
  constructor
  · simp only [calculate_average_rank]
    split_ifs with h
    · exact iff_of_true rfl (hchar.mp h)
    · exact iff_of_false (by simp) (fun hall => h (hchar.mpr hall))
  · intro hne
    simp only [calculate_average_rank]
    rw [if_neg (fun hc => hne (hchar.mp hc))]

/-- Witness for C5: the spec's own examples,
`average_rank([1,2,3,None,None]) = 2.0` and `average_rank([None,None])`
absent. -/
theorem calculate_average_rank_spec_witness :
    calculate_average_rank [some 1, some 2, some 3, none, none] = some 2 ∧
    calculate_average_rank [none, none] = none := by
  constructor
  · have h := (calculate_average_rank_spec [some 1, some 2, some 3, none, none]).2 (by simp)
    rw [h]
    have hfm : (([some 1, some 2, some 3, none, none] : List (Option ℤ)).filterMap id) =
        [1, 2, 3] := by decide
    rw [hfm]
    have hv : ((([1, 2, 3] : List ℤ).sum : ℚ) / (([1, 2, 3] : List ℤ).length : ℚ)) = 2 := by
      norm_num [List.sum_cons, List.sum_nil]
    rw [hv]
    have h2 := round2_intCast 2
    norm_num at h2
    rw [h2]
  · exact (calculate_average_rank_spec [none, none]).1.mpr (by simp)

/-- Counterexample to C4 as stated: the claim quantifies over every
`grid_size`, but at `grid_size = 0` the divisor `max_score - total_points`
is zero and the code raises `ZeroDivisionError` instead of returning a
rounded clamped score. -/
theorem visibility_score_gridsize_zero_raises :
    calculate_visibility_score [some 1] 0 =
      .error "ZeroDivisionError: division by zero" := rfl

/-- C4 (amended): for every rank sequence and every `grid_size ≠ 0`,
`calculate_visibility_score` returns
`round2 (clamp ((total·20 − rank_sum) / (total·20 − total) · 100))` with
`total = grid_size²` and absent ranks counted as 20; in particular it returns
100 when every rank is 1 and 0 when every rank is absent (length `total`
sequences), and every returned value lies in `[0, 100]`. -/
theorem visibility_score_formula_spec (grid_size : ℤ) (hne : grid_size ≠ 0) :
    (∀ ranks : List (Option ℤ),
      calculate_visibility_score ranks grid_size =
        .ok (round2 (max 0 (min 100
          ((((grid_size * grid_size * 20 : ℤ) : ℚ) -
              (((ranks.map fun rank => rank.getD 20).sum : ℤ) : ℚ)) /
            (((grid_size * grid_size * 20 : ℤ) : ℚ) - ((grid_size * grid_size : ℤ) : ℚ)) *
            100))))) ∧
    calculate_visibility_score
        (List.replicate (grid_size * grid_size).toNat (some 1)) grid_size = .ok 100 ∧
    calculate_visibility_score
        (List.replicate (grid_size * grid_size).toNat none) grid_size = .ok 0 ∧
    (∀ (ranks : List (Option ℤ)) (q : ℚ),
      calculate_visibility_score ranks grid_size = .ok q → 0 ≤ q ∧ q ≤ 100) := by
  have h2 : grid_size * grid_size ≠ 0 := mul_ne_zero hne hne
  have hnn : (0 : ℤ) ≤ grid_size * grid_size := mul_self_nonneg grid_size
  have htn : ((grid_size * grid_size).toNat : ℤ) = grid_size * grid_size :=
    Int.toNat_of_nonneg hnn
  have hden : ((grid_size * grid_size * 20 : ℤ) : ℚ) - ((grid_size * grid_size : ℤ) : ℚ) ≠ 0 := by
    rw [← Int.cast_sub]
    rw [Int.cast_ne_zero]
    intro hc
    exact h2 (by linarith)
  refine ⟨fun ranks => calculate_visibility_score_eq ranks grid_size hne, ?_, ?_, ?_⟩
  · rw [calculate_visibility_score_eq _ grid_size hne]
    have hsum : ((List.replicate (grid_size * grid_size).toNat (some (1 : ℤ))).map
        fun rank => rank.getD 20).sum = grid_size * grid_size := by
      simp [List.map_replicate, List.sum_replicate, smul_eq_mul, htn]
    rw [hsum]
    have hscore : (((grid_size * grid_size * 20 : ℤ) : ℚ) - ((grid_size * grid_size : ℤ) : ℚ)) /
        (((grid_size * grid_size * 20 : ℤ) : ℚ) - ((grid_size * grid_size : ℤ) : ℚ)) * 100
          = 100 := by
      rw [div_self hden]
      norm_num
    rw [hscore]
    have hclamp : max (0 : ℚ) (min 100 100) = 100 := by norm_num
    rw [hclamp]
    have h100 := round2_intCast 100
    norm_num at h100
    rw [h100]
  · rw [calculate_visibility_score_eq _ grid_size hne]
    have hsum0 : ((List.replicate (grid_size * grid_size).toNat (none : Option ℤ)).map
        fun rank => rank.getD 20).sum = grid_size * grid_size * 20 := by
      simp [List.map_replicate, List.sum_replicate, smul_eq_mul, htn]
    rw [hsum0, sub_self, zero_div, zero_mul]
    have hclamp : max (0 : ℚ) (min 100 0) = 0 := by norm_num
    rw [hclamp]
    have h0 := round2_intCast 0
    norm_num at h0
    rw [h0]
  · intro ranks q hq
    rw [calculate_visibility_score_eq _ grid_size hne] at hq
    have hq' := Except.ok.inj hq
    rw [← hq']
    exact round2_clamp_mem _

/-- Witness for C4 (amended) at `grid_size = 3`: all-rank-1 gives 100, all
absent gives 0. -/
theorem visibility_score_formula_spec_witness :
    calculate_visibility_score (List.replicate 9 (some 1)) 3 = .ok 100 ∧
    calculate_visibility_score (List.replicate 9 none) 3 = .ok 0 := by
  have h := visibility_score_formula_spec 3 (by norm_num)
  have h1 := h.2.1
  have h2 := h.2.2.1
  have h9 : ((3 * 3 : ℤ)).toNat = 9 := by decide
  rw [h9] at h1 h2
  exact ⟨h1, h2⟩

/-- Counterexample to C7 as stated: `grid_size = 4` is not in `{3,5,7}`, yet
the Stats Aggregator raises nothing — `calculate_visibility_score` and
`calculate_scan_stats` both return ordinary results. -/
theorem stats_gridsize_four_no_error :
    calculate_visibility_score [] 4 = .ok 100 ∧
    calculate_scan_stats [] 4 =
      .ok { arp := none, top3 := 0, top10 := 0,
            visibility_score := 100, total_points := 16 } := by
  have hvis : calculate_visibility_score [] 4 = .ok 100 := by
    rw [calculate_visibility_score_eq [] 4 (by norm_num)]
    have hexpr : (((4 * 4 * 20 : ℤ) : ℚ) -
          (((([] : List (Option ℤ)).map fun rank => rank.getD 20).sum : ℤ) : ℚ)) /
        (((4 * 4 * 20 : ℤ) : ℚ) - ((4 * 4 : ℤ) : ℚ)) * 100 = 2000/19 := by
      norm_num
    rw [hexpr]
    have hmin : min (100 : ℚ) (2000/19) = 100 := min_eq_left (by norm_num)
    rw [hmin]
    have hmax : max (0 : ℚ) (100 : ℚ) = 100 := max_eq_right (by norm_num)
    rw [hmax]
    have h100 := round2_intCast 100
    norm_num at h100
    rw [h100]
  refine ⟨hvis, ?_⟩
  simp only [calculate_scan_stats, hvis, Except.map]
  simp [calculate_average_rank, count_top3, count_top10]

/-- C7 (amended): an invalid `grid_size` (not in `{3,5,7}`) raises the
validation error only in the Grid Generator (`generate_geogrid`,
`estimate_credits`); the Stats Aggregator performs no `grid_size` validation —
for any nonzero `grid_size` (in particular every invalid one except 0) both
`calculate_visibility_score` and `calculate_scan_stats` return ordinary
results instead of raising. -/
theorem stats_no_gridsize_validation (ranks : List (Option ℤ)) (grid_size : ℤ)
    (hgs : ¬ (grid_size = 3 ∨ grid_size = 5 ∨ grid_size = 7)) (hne : grid_size ≠ 0) :
    (∃ q, calculate_visibility_score ranks grid_size = .ok q) ∧
    (∃ s, calculate_scan_stats ranks grid_size = .ok s) ∧
    estimate_credits grid_size = .error "Grid size must be 3, 5, or 7" ∧
    (∀ center_lat center_lng radius_km cosLat : ℚ,
      generate_geogrid center_lat center_lng radius_km grid_size cosLat =
        .error "Grid size must be 3, 5, or 7") := by
  have hvis := calculate_visibility_score_eq ranks grid_size hne
  have hscan : calculate_scan_stats ranks grid_size = .ok
      { arp := calculate_average_rank ranks
        top3 := count_top3 ranks
        top10 := count_top10 ranks
        visibility_score := round2 (max 0 (min 100
          ((((grid_size * grid_size * 20 : ℤ) : ℚ) -
              (((ranks.map fun rank => rank.getD 20).sum : ℤ) : ℚ)) /
            (((grid_size * grid_size * 20 : ℤ) : ℚ) - ((grid_size * grid_size : ℤ) : ℚ)) *
            100)))
        total_points := grid_size * grid_size } := by
    simp only [calculate_scan_stats, hvis]
    rfl
  refine ⟨⟨_, hvis⟩, ⟨_, hscan⟩, ?_, ?_⟩
  · simp only [estimate_credits]
    rw [if_pos hgs]
  · intro center_lat center_lng radius_km cosLat
    simp only [generate_geogrid]
    rw [if_pos hgs]

/-- Witness for C7 (amended) at `grid_size = 4` with a one-point rank list. -/
theorem stats_no_gridsize_validation_witness :
    (∃ q, calculate_visibility_score [some 5] 4 = .ok q) ∧
    (∃ s, calculate_scan_stats [some 5] 4 = .ok s) ∧
    estimate_credits 4 = .error "Grid size must be 3, 5, or 7" ∧
    (∀ center_lat center_lng radius_km cosLat : ℚ,
      generate_geogrid center_lat center_lng radius_km 4 cosLat =
        .error "Grid size must be 3, 5, or 7") :=
  stats_no_gridsize_validation [some 5] 4 (by norm_num) (by norm_num)

/-- Counterexample to C8 as stated: the mixed sequence with one present rank
of exactly 20 (the worst trackable rank) and eight absent ranks has
`rank_sum = max_score`, so the score is exactly 0, not strictly greater
than 0. -/
theorem visibility_score_mixed_zero_counterexample :
    calculate_visibility_score (some 20 :: List.replicate 8 none) 3 = .ok 0 := by
  rw [calculate_visibility_score_eq _ 3 (by norm_num)]
  have hsum : (((some 20 :: List.replicate 8 none : List (Option ℤ)).map
      fun rank => rank.getD 20).sum) = 180 := by decide
  rw [hsum]
  have hexpr : (((3 * 3 * 20 : ℤ) : ℚ) - ((180 : ℤ) : ℚ)) /
      (((3 * 3 * 20 : ℤ) : ℚ) - ((3 * 3 : ℤ) : ℚ)) * 100 = 0 := by norm_num
  rw [hexpr]
  have hclamp : max (0 : ℚ) (min 100 0) = 0 := by norm_num
  rw [hclamp]
  have h0 := round2_intCast 0
  norm_num at h0
  rw [h0]

/-- C8 (amended): for every rank sequence of length `grid_size²`
(`grid_size ∈ {3,5,7}`) whose present ranks lie in `[1, 20]`, containing at
least one absent rank and at least one present rank strictly below 20,
`calculate_visibility_score` returns a value strictly between 0 and 100.
(A mixed sequence whose only present ranks equal 20 scores exactly 0, as the
counterexample shows.) -/
theorem visibility_score_mixed_strict_bounds (ranks : List (Option ℤ)) (grid_size : ℤ)
    (hgs : grid_size = 3 ∨ grid_size = 5 ∨ grid_size = 7)
    (hlen : (ranks.length : ℤ) = grid_size * grid_size)
    (hrange : ∀ v : ℤ, some v ∈ ranks → 1 ≤ v ∧ v ≤ 20)
    (hpresent : ∃ v : ℤ, some v ∈ ranks ∧ v < 20)
    (habsent : none ∈ ranks) :
    ∃ q, calculate_visibility_score ranks grid_size = .ok q ∧ 0 < q ∧ q < 100 := by
  have hne : grid_size ≠ 0 := by rcases hgs with h | h | h <;> subst h <;> norm_num
  have hT : grid_size * grid_size = 9 ∨ grid_size * grid_size = 25 ∨
      grid_size * grid_size = 49 := by
    rcases hgs with h | h | h <;> subst h <;> norm_num
  have hmem : ∀ x ∈ (ranks.map fun rank => rank.getD 20), 1 ≤ x ∧ x ≤ 20 := by
    intro x hx
    obtain ⟨r, hr, rfl⟩ := List.mem_map.mp hx
    cases r with
    | none => exact ⟨by norm_num, by norm_num⟩
    | some v => exact hrange v hr
  have hlenm : (((ranks.map fun rank => rank.getD 20).length : ℕ) : ℤ) =
      grid_size * grid_size := by
    rw [List.length_map]
    exact hlen
  have h20mem : (20 : ℤ) ∈ (ranks.map fun rank => rank.getD 20) :=
    List.mem_map.mpr ⟨none, habsent, rfl⟩
  have hlo' := sum_ge_of_mem_ge (ranks.map fun rank => rank.getD 20) 1 20 h20mem
    (fun x hx => (hmem x hx).1)
  obtain ⟨v, hv, hv20⟩ := hpresent
  have hvmem : v ∈ (ranks.map fun rank => rank.getD 20) :=
    List.mem_map.mpr ⟨some v, hv, rfl⟩
  have hhi' := sum_le_of_mem_le_sub_one (ranks.map fun rank => rank.getD 20) 20 v hvmem
    (by omega) (fun x hx => (hmem x hx).2)
  rw [one_mul, hlenm] at hlo'
  rw [hlenm] at hhi'
  have hlo : grid_size * grid_size + 19 ≤ (ranks.map fun rank => rank.getD 20).sum := by
    linarith
  have hhi : (ranks.map fun rank => rank.getD 20).sum ≤
      20 * (grid_size * grid_size) - 1 := by linarith
  have hb := score_bounds_aux (grid_size * grid_size)
    ((ranks.map fun rank => rank.getD 20).sum) hT hlo hhi
  refine ⟨_, calculate_visibility_score_eq ranks grid_size hne, ?_⟩
  exact round2_clamp_strict hb.1 hb.2

/-- Witness for C8 (amended): one present rank 1 plus eight absent ranks in a
3×3 grid scores strictly between 0 and 100. -/
theorem visibility_score_mixed_strict_bounds_witness :
    ∃ q, calculate_visibility_score (some 1 :: List.replicate 8 none) 3 = .ok q ∧
      0 < q ∧ q < 100 :=
  visibility_score_mixed_strict_bounds (some 1 :: List.replicate 8 none) 3
    (by norm_num)
    (by decide)
    (by
      intro v hv
      rw [List.mem_cons] at hv
      rcases hv with h | h
      · have hv1 := Option.some.inj h
        subst hv1
        exact ⟨le_refl 1, by norm_num⟩
      · exact absurd h (by simp [List.mem_replicate]))
    ⟨1, List.mem_cons_self _ _, by norm_num⟩
    (by simp [List.mem_replicate])

/-- Counterexample to C9 as stated: the labels of a 3×3 grid are
`Ponto_0_0 … Ponto_2_2` (Portuguese), not `Point_0_0 … Point_2_2` — the very
first label already differs from the claimed string. -/
theorem grid_labels_ponto_counterexample :
    (generate_geogrid 0 0 2 3 1).map (List.map GridPoint.label) =
      .ok ["Ponto_0_0", "Ponto_0_1", "Ponto_0_2", "Ponto_1_0", "Ponto_1_1",
           "Ponto_1_2", "Ponto_2_0", "Ponto_2_1", "Ponto_2_2"] ∧
    "Ponto_0_0" ≠ "Point_0_0" := by
  constructor
  · rw [generate_geogrid_ok 0 0 2 1 3 (by norm_num) (by norm_num) (by norm_num) (by norm_num)]
    rfl
  · decide

/-- C9 (amended): every `GridPoint` returned by `generate_geogrid` has label
`"Ponto_{row}_{column}"` formed from its 0-indexed row and column (so a 3×3
grid yields labels `Ponto_0_0 … Ponto_2_2` in row-major order). -/
theorem generate_geogrid_label_format
    (center_lat center_lng radius_km cosLat : ℚ) (grid_size : ℤ)
    (hgs : grid_size = 3 ∨ grid_size = 5 ∨ grid_size = 7)
    (h0 : 0 < radius_km) (h50 : radius_km ≤ 50) (hcos : cosLat ≠ 0) :
    ∃ pts : List GridPoint,
      generate_geogrid center_lat center_lng radius_km grid_size cosLat = .ok pts ∧
      ∀ k : ℕ, ∀ hk : k < pts.length,
        (pts.get ⟨k, hk⟩).label =
          "Ponto_" ++ toString (k / grid_size.toNat) ++ "_" ++
            toString (k % grid_size.toNat) := by
  refine ⟨_, generate_geogrid_ok center_lat center_lng radius_km cosLat grid_size hgs h0 h50 hcos,
    ?_⟩
  intro k hk
  simp only [List.get_eq_getElem, List.getElem_map, List.getElem_range]
  rfl

/-- Witness for C9 (amended) at a 3×3 grid over the origin. -/
theorem generate_geogrid_label_format_witness :
    ∃ pts : List GridPoint,
      generate_geogrid 0 0 2 3 1 = .ok pts ∧
      ∀ k : ℕ, ∀ hk : k < pts.length,
        (pts.get ⟨k, hk⟩).label =
          "Ponto_" ++ toString (k / (3 : ℤ).toNat) ++ "_" ++
            toString (k % (3 : ℤ).toNat) :=
  generate_geogrid_label_format 0 0 2 1 3 (by norm_num) (by norm_num) (by norm_num)
    (by norm_num)
